import Mathlib

set_option maxRecDepth 8000

/-
Verification development for the Islamic Finance Standards backend
(`src/main.py`): a FastAPI service that templates prompts from static
reference data and proxies them to the Together AI completion endpoint.

Shallow embedding conventions:
* The external HTTP layer is modelled by an `Oracle`: a function from the
  outbound `GenerationRequest` to an `ApiOutcome` (either a raised transport
  exception, or a status code together with the result of parsing the body).
* Every operation that may call the generation client returns, alongside its
  result, the list of `GenerationRequest`s it issued, in order.
* Python exceptions raised inside a handler's `try` block are modelled by
  `Except HTTPException`; the trailing `except Exception` clause of each
  handler is `wrapHandler`, which re-raises any caught exception as a 500
  whose detail is the Starlette string form `"<status>: <detail>"` of the
  caught exception.
* Python floats (the sampling temperatures 0.5 and 0.7) are modelled as
  exact rationals; they are only ever passed through, never computed on.
* JSON file contents are modelled at the value level (`Json`): `json.load`
  returns the stored value, `json.dump` stores it; a missing file is `none`.
-/

/-! ## Data model (src/main.py lines 30-42 and the JSON record shapes) -/

/-- A record of `data/standards.json`: accessed in the handlers via the keys
`id`, `title_en` and `title_ar`. -/
structure Standard where
  id : String
  title_en : String
  title_ar : String
deriving DecidableEq

/-- A record of `data/examples.json`: accessed in the handlers via the keys
`standard_id`, `scenario_en` and `scenario_ar`. -/
structure Example where
  standard_id : String
  scenario_en : String
  scenario_ar : String
deriving DecidableEq

/-- Request body of POST /api/explanation (`ExplanationRequest`, lines 30-33);
`language` defaults to "English" at the pydantic layer. -/
structure ExplanationRequest where
  standard_id : String
  scenario : String
  language : String
deriving DecidableEq

/-- Request body of POST /api/feedback (`FeedbackRequest`, lines 35-38). -/
structure FeedbackRequest where
  standard_id : String
  user_solution : String
  language : String
deriving DecidableEq

/-- Request body of POST /api/ask (`QuestionRequest`, lines 40-42). -/
structure QuestionRequest where
  question : String
  language : String
deriving DecidableEq

/-! ## Text-generation client (src/main.py lines 44-84) -/

/-- The JSON payload `data` sent by `generate_text` (lines 57-62): model,
prompt, max_tokens, temperature. -/
structure GenerationRequest where
  model : String
  prompt : String
  max_tokens : Nat
  temperature : ℚ
deriving DecidableEq

/-- Outcome of one outbound `requests.post` call, as observed by
`generate_text`:
* `exn desc` — the call (or anything before the status check) raised, with
  `str(e) = desc` (timeout, connection refused, ...);
* `response status parsed` — a response arrived with the given status code;
  `parsed` is the combined result of `response.json()` and the extraction of
  the texts `[c["text"] for c in result["choices"]]`: `Except.error desc`
  when that raises (malformed JSON, missing key) and `Except.ok texts`
  otherwise.  The code consults `parsed` only on the 200 path, matching the
  source, where `response.json()` is only reached when the status is 200. -/
inductive ApiOutcome where
  | exn (desc : String)
  | response (status : Nat) (parsed : Except String (List String))

/-- Environment of the process: the behaviour of the external completion
endpoint on each outbound request. -/
def Oracle : Type := GenerationRequest → ApiOutcome

/-- `TogetherAIClient.__init__` state (lines 46-53); `base_url` and `headers`
are fixed derived strings and are not needed by any claim. -/
structure TogetherAIClient where
  api_key : String
  model : String

/-- The client constructed at line 116 with the default model argument. -/
def mkTogetherAIClient (api_key : String) : TogetherAIClient :=
  ⟨api_key, "mistralai/Mistral-7B-Instruct-v0.2"⟩

/-- The `try`/`except` body of `generate_text` (lines 64-84), applied to the
observed outcome of the outbound call:
* exception anywhere in the `try` body → `"Error: " ++ str(e)`;
* `response.status_code != 200` → `"Error: " ++ str(status_code)`;
* status 200 but `result["choices"][0]["text"]` raises → `"Error: " ++ str(e)`,
  where an empty `choices` list raises `IndexError("list index out of range")`;
* status 200 with a first choice → that choice's text, verbatim. -/
def processOutcome : ApiOutcome → String
  | ApiOutcome.exn desc => "Error: " ++ desc
  | ApiOutcome.response status parsed =>
      if status ≠ 200 then "Error: " ++ toString status
      else
        match parsed with
        | Except.error desc => "Error: " ++ desc
        | Except.ok [] => "Error: list index out of range"
        | Except.ok (t :: _) => t

/-- `TogetherAIClient.generate_text` (lines 55-84).  Returns the generated (or
sentinel) string together with the single outbound request it issued.  It is a
total function: the Python method never raises, every failure mode being
collapsed into an `"Error: ..."` string by its `except` clause. -/
def TogetherAIClient.generate_text (c : TogetherAIClient) (oracle : Oracle)
    (prompt : String) (max_tokens : Nat) (temperature : ℚ) :
    String × List GenerationRequest :=
  let req : GenerationRequest :=
    { model := c.model, prompt := prompt,
      max_tokens := max_tokens, temperature := temperature }
  (processOutcome (oracle req), [req])

/-! ## Prompt templates (src/main.py lines 122-211)

Each f-string template is transcribed verbatim, with the interpolation slots
turned into string concatenation. -/

/-- The English explanation template (lines 125-138). -/
def englishExplanationPrompt (standard_title scenario : String) : String :=
  "You are an expert in Islamic Finance standards, particularly AAOIFI standards.\nExplain the accounting treatment for the given scenario in simple terms that a non-specialist can understand.\nUse step-by-step explanations and include the journal entries where appropriate.\n\nStandard: "
  ++ standard_title
  ++ "\n\nScenario: "
  ++ scenario
  ++ "\n\nPlease explain:\n1. What this standard is about\n2. How to account for this transaction step-by-step\n3. The proper journal entries\n4. Why this method complies with Islamic finance principles\n"

/-- The Arabic explanation template (lines 140-153). -/
def arabicExplanationPrompt (standard_title scenario : String) : String :=
  "أنت خبير في معايير التمويل الإسلامي، خاصة معايير هيئة المحاسبة والمراجعة للمؤسسات المالية الإسلامية.\nقم بشرح المعالجة المحاسبية للسيناريو المعطى بمصطلحات بسيطة يمكن لغير المتخصص فهمها.\nاستخدم شرحًا خطوة بخطوة وقم بتضمين قيود اليومية حيثما كان ذلك مناسبًا.\n\nالمعيار: "
  ++ standard_title
  ++ "\n\nالسيناريو: "
  ++ scenario
  ++ "\n\nيرجى شرح:\n1. ما هو هذا المعيار\n2. كيفية المحاسبة عن هذه المعاملة خطوة بخطوة\n3. قيود اليومية المناسبة\n4. لماذا تتوافق هذه الطريقة مع مبادئ التمويل الإسلامي\n"

/-- The English feedback template (lines 160-172). -/
def englishFeedbackPrompt (scenario user_solution expert_solution : String) : String :=
  "You are an expert in Islamic Finance standards. Compare the user's solution to an expert solution and provide feedback.\n\nScenario: "
  ++ scenario
  ++ "\n\nUser's solution:\n"
  ++ user_solution
  ++ "\n\nExpert solution:\n"
  ++ expert_solution
  ++ "\n\nProvide feedback on the user's solution. Highlight what they got correct and what needs improvement.\nRate their understanding on a scale of 1-10.\n"

/-- The Arabic feedback template (lines 174-186). -/
def arabicFeedbackPrompt (scenario user_solution expert_solution : String) : String :=
  "أنت خبير في معايير التمويل الإسلامي. قارن حل المستخدم بحل الخبير وقدم تعليقات.\n\nالسيناريو: "
  ++ scenario
  ++ "\n\nحل المستخدم:\n"
  ++ user_solution
  ++ "\n\nحل الخبير:\n"
  ++ expert_solution
  ++ "\n\nقدم تعليقات على حل المستخدم. سلط الضوء على ما أصابوه بشكل صحيح وما يحتاج إلى تحسين.\nقيّم فهمهم على مقياس من 1 إلى 10.\n"

/-- The English free-form question template (lines 193-200). -/
def englishQuestionPrompt (question : String) : String :=
  "You are an expert in Islamic Finance standards, particularly AAOIFI standards.\nThe user has asked the following question about Islamic Finance:\n\n"
  ++ question
  ++ "\n\nProvide a clear, detailed answer using your knowledge of Islamic finance principles and standards.\nReference specific AAOIFI standards when relevant. Make your explanation easy for non-specialists to understand.\n"

/-- The Arabic free-form question template (lines 202-209). -/
def arabicQuestionPrompt (question : String) : String :=
  "أنت خبير في معايير التمويل الإسلامي، خاصة معايير هيئة المحاسبة والمراجعة للمؤسسات المالية الإسلامية.\nطرح المستخدم السؤال التالي حول التمويل الإسلامي:\n\n"
  ++ question
  ++ "\n\nقدم إجابة واضحة ومفصلة باستخدام معرفتك بمبادئ ومعايير التمويل الإسلامي.\nأشر إلى معايير هيئة المحاسبة والمراجعة للمؤسسات المالية الإسلامية المحددة عندما يكون ذلك ذا صلة. اجعل شرحك سهلاً لغير المتخصصين لفهمه.\n"

/-! ## Prompt composers (`IslamicFinanceStandardsExplainer`, lines 118-211)

The explainer object holds only the client; each method is modelled as a
function of the client, the oracle, and the method's own parameters. -/

/-- `IslamicFinanceStandardsExplainer.get_explanation` (lines 122-155).  The
`standard` parameter is accepted but unused, as in the source. -/
def IslamicFinanceStandardsExplainer.get_explanation (c : TogetherAIClient)
    (oracle : Oracle) (standard standard_title scenario language : String) :
    String × List GenerationRequest :=
  let _ := standard
  let prompt :=
    if language == "English" then englishExplanationPrompt standard_title scenario
    else arabicExplanationPrompt standard_title scenario
  c.generate_text oracle prompt 2048 (0.5 : ℚ)

/-- `IslamicFinanceStandardsExplainer.get_feedback` (lines 157-188). -/
def IslamicFinanceStandardsExplainer.get_feedback (c : TogetherAIClient)
    (oracle : Oracle) (scenario user_solution expert_solution language : String) :
    String × List GenerationRequest :=
  let prompt :=
    if language == "English" then
      englishFeedbackPrompt scenario user_solution expert_solution
    else
      arabicFeedbackPrompt scenario user_solution expert_solution
  c.generate_text oracle prompt 1024 (0.5 : ℚ)

/-- `IslamicFinanceStandardsExplainer.ask_custom_question` (lines 190-211). -/
def IslamicFinanceStandardsExplainer.ask_custom_question (c : TogetherAIClient)
    (oracle : Oracle) (question language : String) :
    String × List GenerationRequest :=
  let prompt :=
    if language == "English" then englishQuestionPrompt question
    else arabicQuestionPrompt question
  c.generate_text oracle prompt 1536 (0.7 : ℚ)

/-! ## Request handlers (src/main.py lines 233-318) -/

/-- A raised `fastapi.HTTPException` (status code and detail). -/
structure HTTPException where
  status_code : Nat
  detail : String
deriving DecidableEq

/-- Starlette's `HTTPException.__str__`: the string `"<status_code>: <detail>"`,
which is what `str(e)` produces in the handlers' `except` clauses when the
caught exception is itself an `HTTPException`. -/
def HTTPException.toStr (e : HTTPException) : String :=
  toString e.status_code ++ ": " ++ e.detail

/-- The `except Exception as e: raise HTTPException(status_code=500,
detail=str(e))` clause wrapped around every POST handler body (lines 259-261,
301-303, 316-318).  It catches every exception the body raises — including the
handler's own 404 `HTTPException`s, since FastAPI's `HTTPException` subclasses
`Exception` — and re-raises it as a 500 carrying `str(e)`. -/
def wrapHandler {α : Type} (body : Except HTTPException α × List GenerationRequest) :
    Except HTTPException α × List GenerationRequest :=
  match body with
  | (Except.ok v, tr) => (Except.ok v, tr)
  | (Except.error e, tr) => (Except.error ⟨500, e.toStr⟩, tr)

/-- `next((s for s in standards if s["id"] == request.standard_id), None)`
(lines 237 and 267): the first standard whose `id` matches, if any. -/
def findStandard (standards : List Standard) (standard_id : String) : Option Standard :=
  standards.find? (fun s => s.id == standard_id)

/-- `next((e for e in examples if e["standard_id"] == request.standard_id),
None)` (lines 242 and 272): the first example whose `standard_id` matches. -/
def findExample (examples : List Example) (standard_id : String) : Option Example :=
  examples.find? (fun e => e.standard_id == standard_id)

/-- Response body of POST /api/explanation (line 257). -/
structure ExplanationResponse where
  explanation : String
deriving DecidableEq

/-- Response body of POST /api/feedback (lines 296-299). -/
structure FeedbackResponse where
  feedback : String
  expert_solution : String
deriving DecidableEq

/-- Response body of POST /api/ask (line 314). -/
structure AskResponse where
  answer : String
deriving DecidableEq

/-- The POST /api/explanation handler (lines 233-261).  Looks up the standard
and the example (404 on a miss), picks the title field by language, and calls
the explanation composer with the *request's* scenario field; the whole body
sits inside the blanket `except`, modelled by `wrapHandler`. -/
def get_explanation (client : TogetherAIClient) (standards : List Standard)
    (examples : List Example) (oracle : Oracle) (request : ExplanationRequest) :
    Except HTTPException ExplanationResponse × List GenerationRequest :=
  wrapHandler (
    match findStandard standards request.standard_id with
    | none => (Except.error ⟨404, "Standard not found"⟩, [])
    | some standard =>
      match findExample examples request.standard_id with
      | none => (Except.error ⟨404, "Example not found"⟩, [])
      | some _ex =>
        let standard_title :=
          if request.language == "English" then standard.title_en else standard.title_ar
        let (explanation, tr) :=
          IslamicFinanceStandardsExplainer.get_explanation client oracle
            request.standard_id standard_title request.scenario request.language
        (Except.ok ⟨explanation⟩, tr))

/-- The POST /api/feedback handler (lines 263-303).  Looks up the standard and
the example (404 on a miss), picks the scenario and title fields by language,
generates the expert solution with the explanation composer on the *example's*
scenario, then generates feedback comparing the user's solution to it;
returns both texts. -/
def get_feedback (client : TogetherAIClient) (standards : List Standard)
    (examples : List Example) (oracle : Oracle) (request : FeedbackRequest) :
    Except HTTPException FeedbackResponse × List GenerationRequest :=
  wrapHandler (
    match findStandard standards request.standard_id with
    | none => (Except.error ⟨404, "Standard not found"⟩, [])
    | some standard =>
      match findExample examples request.standard_id with
      | none => (Except.error ⟨404, "Example not found"⟩, [])
      | some ex =>
        let scenario :=
          if request.language == "English" then ex.scenario_en else ex.scenario_ar
        let standard_title :=
          if request.language == "English" then standard.title_en else standard.title_ar
        let (expert_solution, tr1) :=
          IslamicFinanceStandardsExplainer.get_explanation client oracle
            request.standard_id standard_title scenario request.language
        let (feedback, tr2) :=
          IslamicFinanceStandardsExplainer.get_feedback client oracle
            scenario request.user_solution expert_solution request.language
        (Except.ok ⟨feedback, expert_solution⟩, tr1 ++ tr2))

/-- The POST /api/ask handler (lines 305-318).  No reference-data lookup: it
forwards the question to the question composer and wraps the generated text in
an `answer` field.  The `standards` and `examples` parameters stand for the
module globals visible to the handler; the body never reads them. -/
def ask_question (client : TogetherAIClient) (standards : List Standard)
    (examples : List Example) (oracle : Oracle) (request : QuestionRequest) :
    Except HTTPException AskResponse × List GenerationRequest :=
  let _ := standards
  let _ := examples
  wrapHandler (
    let (answer, tr) :=
      IslamicFinanceStandardsExplainer.ask_custom_question client oracle
        request.question request.language
    (Except.ok ⟨answer⟩, tr))

/-! ## Reference-data bootstrap (src/main.py lines 86-113) -/

/-- A JSON value, for the contents of the three data files. -/
inductive Json where
  | null
  | bool (b : Bool)
  | num (n : Int)
  | str (s : String)
  | arr (elems : List Json)
  | obj (members : List (String × Json))

/-- The three backing files; `none` is an absent file, `some v` a file whose
content parses to the JSON value `v`. -/
structure DataFiles where
  standards_json : Option Json
  examples_json : Option Json
  glossary_json : Option Json

/-- The module-level load/bootstrap block (lines 86-113).  The `try` block
reads `data/standards.json`, then `data/examples.json`, then
`data/glossary.json`; a `FileNotFoundError` from any of the three — i.e.
unless all three files exist — lands in the `except` block, which sets all
three collections to the empty list and writes an empty JSON array to each of
the three files.  Returns the three loaded values and the resulting file
system. -/
def loadReferenceData (fs : DataFiles) : (Json × Json × Json) × DataFiles :=
  match fs.standards_json, fs.examples_json, fs.glossary_json with
  | some s, some e, some g => ((s, e, g), fs)
  | _, _, _ =>
      ((Json.arr [], Json.arr [], Json.arr []),
       ⟨some (Json.arr []), some (Json.arr []), some (Json.arr [])⟩)

/-! ## Substring containment -/

/-- `t` occurs verbatim as a contiguous substring of `s`. -/
def containsSubstr (s t : String) : Prop :=
  ∃ l r : String, s = l ++ t ++ r

/-! ## Concrete fixtures used by witnesses -/

/-- A sample standard record. -/
def stdFAS4 : Standard := ⟨"FAS4", "Musharaka Financing", "تمويل المشاركة"⟩

/-- A second standard record sharing the identifier of `stdFAS4`. -/
def stdFAS4dup : Standard := ⟨"FAS4", "Duplicate Entry", "إدخال مكرر"⟩

/-- A standard record with a different identifier. -/
def stdFAS7 : Standard := ⟨"FAS7", "Salam", "السلم"⟩

/-- A sample example record for `stdFAS4`. -/
def exFAS4 : Example := ⟨"FAS4", "A bank enters a Musharaka.", "يدخل البنك في مشاركة."⟩

/-- A second example record sharing the standard identifier of `exFAS4`. -/
def exFAS4dup : Example := ⟨"FAS4", "Duplicate scenario.", "سيناريو مكرر."⟩

/-- A client built like the module-level `ai_client` (line 116). -/
def wClient : TogetherAIClient := mkTogetherAIClient "test-key"

/-- An oracle on which every outbound call raises a transport exception. -/
def oracleExn : Oracle := fun _ => ApiOutcome.exn "Connection refused"

/-- An oracle on which every outbound call gets a 503 response. -/
def oracle503 : Oracle := fun _ => ApiOutcome.response 503 (Except.ok [])

/-- An oracle on which every response is a 200 whose body fails to parse. -/
def oracleBadJson : Oracle :=
  fun _ => ApiOutcome.response 200 (Except.error "Expecting value: line 1 column 1 (char 0)")

/-- An oracle on which every response is a 200 with an empty choices list. -/
def oracleNoChoices : Oracle := fun _ => ApiOutcome.response 200 (Except.ok [])

/-- An oracle on which every response is a 200 with first choice text "X". -/
def oracleX : Oracle := fun _ => ApiOutcome.response 200 (Except.ok ["X"])

/-- A stub oracle answering every call with the text "Murabaha is...". -/
def oracleMurabaha : Oracle := fun _ => ApiOutcome.response 200 (Except.ok ["Murabaha is..."])

/-- An oracle that fails the explanation-composer call (max_tokens 2048) with
a 503 and answers every other call with a fixed feedback text: it exercises
the feedback handler's behaviour when its first generation call fails. -/
def oracleFirstCallFails : Oracle := fun req =>
  if req.max_tokens == 2048 then ApiOutcome.response 503 (Except.ok [])
  else ApiOutcome.response 200 (Except.ok ["Good attempt overall."])

/-! ## Helper lemmas -/

/-- The leading block of an append is a substring. -/
theorem containsSubstr_head (t c : String) : containsSubstr (t ++ c) t :=
  ⟨"", c, rfl⟩

/-- Substring containment is preserved by prepending. -/
theorem containsSubstr_tail (a p t : String) (h : containsSubstr p t) :
    containsSubstr (a ++ p) t := by
  obtain ⟨l, r, hp⟩ := h
  exact ⟨a ++ l, r, by rw [hp]; simp [String.append_assoc]⟩

/-- The English and Arabic explanation templates never coincide on the same
interpolants: their fixed skeletons have different total lengths (484 and 436
characters). -/
theorem englishExplanationPrompt_ne_arabic (t s : String) :
    englishExplanationPrompt t s ≠ arabicExplanationPrompt t s := by
  intro h
  have h2 := congrArg String.length h
  simp only [englishExplanationPrompt, arabicExplanationPrompt,
    String.length_append] at h2
  have hne :
      ("You are an expert in Islamic Finance standards, particularly AAOIFI standards.\nExplain the accounting treatment for the given scenario in simple terms that a non-specialist can understand.\nUse step-by-step explanations and include the journal entries where appropriate.\n\nStandard: " : String).length +
        ("\n\nScenario: " : String).length +
        ("\n\nPlease explain:\n1. What this standard is about\n2. How to account for this transaction step-by-step\n3. The proper journal entries\n4. Why this method complies with Islamic finance principles\n" : String).length ≠
      ("أنت خبير في معايير التمويل الإسلامي، خاصة معايير هيئة المحاسبة والمراجعة للمؤسسات المالية الإسلامية.\nقم بشرح المعالجة المحاسبية للسيناريو المعطى بمصطلحات بسيطة يمكن لغير المتخصص فهمها.\nاستخدم شرحًا خطوة بخطوة وقم بتضمين قيود اليومية حيثما كان ذلك مناسبًا.\n\nالمعيار: " : String).length +
        ("\n\nالسيناريو: " : String).length +
        ("\n\nيرجى شرح:\n1. ما هو هذا المعيار\n2. كيفية المحاسبة عن هذه المعاملة خطوة بخطوة\n3. قيود اليومية المناسبة\n4. لماذا تتوافق هذه الطريقة مع مبادئ التمويل الإسلامي\n" : String).length := by
    decide
  omega

/-- `List.find?` on a list whose first satisfying element is `a` returns `a`:
every earlier element fails the predicate, every later match is ignored. -/
theorem find?_first_match {α : Type} (p : α → Bool) (l1 l2 : List α) (a : α)
    (h1 : ∀ x ∈ l1, p x = false) (ha : p a = true) :
    (l1 ++ a :: l2).find? p = some a := by
  induction l1 with
  | nil => simp [List.find?, ha]
  | cons b t ih =>
      have hb : p b = false := h1 b (List.mem_cons_self b t)
      simp only [List.cons_append, List.find?, hb]
      exact ih fun x hx => h1 x (List.mem_cons_of_mem b hx)

/-! ## Claim theorems -/

/-- C1: the claim says a request whose standard or example is missing yields a
not-found (404-equivalent) failure.  The code does raise
`HTTPException(404, ...)`, but it does so inside the handler's `try` block,
whose `except Exception` clause catches it (FastAPI's `HTTPException`
subclasses `Exception`) and re-raises `HTTPException(500, str(e))`: the caller
observes status 500 with detail "404: Standard not found" (resp. "404: Example
not found"), not a 404.  The other half of the claim does hold: no generation
call is made (the trace is empty).  This theorem evaluates both handlers at
failing inputs, for every client and every oracle. -/
theorem notfound_rewrapped_as_500 :
    ∀ (client : TogetherAIClient) (oracle : Oracle),
      get_explanation client [] [] oracle ⟨"FAS32", "Some scenario", "English"⟩ =
        (Except.error ⟨500, "404: Standard not found"⟩, []) ∧
      get_explanation client [stdFAS4] [] oracle ⟨"FAS4", "Some scenario", "English"⟩ =
        (Except.error ⟨500, "404: Example not found"⟩, []) ∧
      get_feedback client [] [] oracle ⟨"FAS32", "My solution", "English"⟩ =
        (Except.error ⟨500, "404: Standard not found"⟩, []) ∧
      get_feedback client [stdFAS4] [] oracle ⟨"FAS4", "My solution", "English"⟩ =
        (Except.error ⟨500, "404: Example not found"⟩, []) :=
  fun _ _ => ⟨rfl, rfl, rfl, rfl⟩

/-- C2: `generate_text` collapses every failure mode into a sentinel string
(and, being a total function of the observed outcome, never raises): a
transport exception with description `d` yields `"Error: " ++ d`; a non-200
status yields `"Error: " ++ toString status`; a 200 whose body fails to parse
with description `d` yields `"Error: " ++ d`; a 200 whose choices list is
empty yields the `IndexError` description.  Holds for every prompt and every
sampling parameter choice. -/
theorem generate_text_error_sentinels (c : TogetherAIClient) (oracle : Oracle)
    (prompt : String) (max_tokens : Nat) (temperature : ℚ) :
    (∀ d, oracle ⟨c.model, prompt, max_tokens, temperature⟩ = ApiOutcome.exn d →
        (c.generate_text oracle prompt max_tokens temperature).1 = "Error: " ++ d) ∧
    (∀ status parsed,
        oracle ⟨c.model, prompt, max_tokens, temperature⟩ = ApiOutcome.response status parsed →
        status ≠ 200 →
        (c.generate_text oracle prompt max_tokens temperature).1 =
          "Error: " ++ toString status) ∧
    (∀ d, oracle ⟨c.model, prompt, max_tokens, temperature⟩ =
            ApiOutcome.response 200 (Except.error d) →
        (c.generate_text oracle prompt max_tokens temperature).1 = "Error: " ++ d) ∧
    (oracle ⟨c.model, prompt, max_tokens, temperature⟩ =
        ApiOutcome.response 200 (Except.ok []) →
      (c.generate_text oracle prompt max_tokens temperature).1 =
        "Error: list index out of range") := by
  refine ⟨?_, ?_, ?_, ?_⟩
  · intro d h
    simp [TogetherAIClient.generate_text, h, processOutcome]
  · intro status parsed h hs
    simp [TogetherAIClient.generate_text, h, processOutcome, hs]
  · intro d h
    simp [TogetherAIClient.generate_text, h, processOutcome]
  · intro h
    simp [TogetherAIClient.generate_text, h, processOutcome]

/-- Witness for C2: the four sentinel shapes at concrete oracles. -/
theorem generate_text_error_sentinels_witness :
    (wClient.generate_text oracleExn "p" 1024 (0.7 : ℚ)).1 = "Error: Connection refused" ∧
    (wClient.generate_text oracle503 "p" 1024 (0.7 : ℚ)).1 = "Error: 503" ∧
    (wClient.generate_text oracleBadJson "p" 1024 (0.7 : ℚ)).1 =
      "Error: Expecting value: line 1 column 1 (char 0)" ∧
    (wClient.generate_text oracleNoChoices "p" 1024 (0.7 : ℚ)).1 =
      "Error: list index out of range" :=
  ⟨(generate_text_error_sentinels wClient oracleExn "p" 1024 (0.7 : ℚ)).1
      "Connection refused" rfl,
   (generate_text_error_sentinels wClient oracle503 "p" 1024 (0.7 : ℚ)).2.1
      503 (Except.ok []) rfl (by decide),
   (generate_text_error_sentinels wClient oracleBadJson "p" 1024 (0.7 : ℚ)).2.2.1
      "Expecting value: line 1 column 1 (char 0)" rfl,
   (generate_text_error_sentinels wClient oracleNoChoices "p" 1024 (0.7 : ℚ)).2.2.2
      rfl⟩

/-- C3: on a 200 response whose body parses to a non-empty choices list,
`generate_text` returns the first choice's text exactly as parsed, with no
post-processing. -/
theorem generate_text_success_verbatim (c : TogetherAIClient) (oracle : Oracle)
    (prompt : String) (max_tokens : Nat) (temperature : ℚ) (t : String)
    (rest : List String)
    (h : oracle ⟨c.model, prompt, max_tokens, temperature⟩ =
        ApiOutcome.response 200 (Except.ok (t :: rest))) :
    (c.generate_text oracle prompt max_tokens temperature).1 = t := by
  simp [TogetherAIClient.generate_text, h, processOutcome]

/-- Witness for C3: the stubbed body with a single choice "X" returns
exactly "X". -/
theorem generate_text_success_verbatim_witness :
    (wClient.generate_text oracleX "p" 1024 (0.7 : ℚ)).1 = "X" :=
  generate_text_success_verbatim wClient oracleX "p" 1024 (0.7 : ℚ) "X" [] rfl

/-- C6: for every input and language, each composer issues exactly one
generation request, with max_tokens 2048 and temperature 0.5 for the
explanation composer, 1024 and 0.5 for the feedback composer, and 1536 and
0.7 for the question composer. -/
theorem composer_sampling_parameters (client : TogetherAIClient) (oracle : Oracle)
    (standard standard_title scenario user_solution expert_solution question
      language : String) :
    ((IslamicFinanceStandardsExplainer.get_explanation client oracle
        standard standard_title scenario language).2.map
        (fun r => (r.max_tokens, r.temperature)) = [(2048, (0.5 : ℚ))]) ∧
    ((IslamicFinanceStandardsExplainer.get_feedback client oracle
        scenario user_solution expert_solution language).2.map
        (fun r => (r.max_tokens, r.temperature)) = [(1024, (0.5 : ℚ))]) ∧
    ((IslamicFinanceStandardsExplainer.ask_custom_question client oracle
        question language).2.map
        (fun r => (r.max_tokens, r.temperature)) = [(1536, (0.7 : ℚ))]) :=
  ⟨rfl, rfl, rfl⟩

/-- C7: when none of the three backing files exist, the load block bootstraps
three empty collections and writes an empty JSON array to each file, and a
subsequent load from the resulting file system again yields three empty
collections without further writes: the bootstrap round-trips. -/
theorem bootstrap_roundtrip :
    loadReferenceData ⟨none, none, none⟩ =
      ((Json.arr [], Json.arr [], Json.arr []),
       ⟨some (Json.arr []), some (Json.arr []), some (Json.arr [])⟩) ∧
    loadReferenceData ⟨some (Json.arr []), some (Json.arr []), some (Json.arr [])⟩ =
      ((Json.arr [], Json.arr [], Json.arr []),
       ⟨some (Json.arr []), some (Json.arr []), some (Json.arr [])⟩) :=
  ⟨rfl, rfl⟩

/-- C4: when both the standard and an example exist, the explanation handler
issues exactly one generation request; its prompt contains the resolved
bilingual title and the scenario text verbatim as substrings, and the prompt
is the Arabic template applied to the resolved title (which is the `title_ar`
field in that case) exactly when the request's language is not "English". -/
theorem explanation_prompt_faithful (client : TogetherAIClient)
    (standards : List Standard) (examples : List Example) (oracle : Oracle)
    (request : ExplanationRequest) (s : Standard)
    (hs : findStandard standards request.standard_id = some s)
    (he : (findExample examples request.standard_id).isSome = true) :
    ∃ gr : GenerationRequest,
      (get_explanation client standards examples oracle request).2 = [gr] ∧
      containsSubstr gr.prompt
        (if request.language == "English" then s.title_en else s.title_ar) ∧
      containsSubstr gr.prompt request.scenario ∧
      (gr.prompt = arabicExplanationPrompt
          (if request.language == "English" then s.title_en else s.title_ar)
          request.scenario ↔ request.language ≠ "English") := by
  obtain ⟨ex, hex⟩ := Option.isSome_iff_exists.mp he
  cases hb : (request.language == "English") with
  | true =>
      refine ⟨⟨client.model, englishExplanationPrompt s.title_en request.scenario,
        2048, (0.5 : ℚ)⟩, ?_, ?_, ?_, ?_⟩
      · simp [get_explanation, hs, hex, hb, wrapHandler,
          IslamicFinanceStandardsExplainer.get_explanation,
          TogetherAIClient.generate_text]
      · simp only [hb, if_true]
        simp only [englishExplanationPrompt, String.append_assoc]
        exact containsSubstr_tail _ _ _ (containsSubstr_head _ _)
      · simp only [englishExplanationPrompt, String.append_assoc]
        exact containsSubstr_tail _ _ _ (containsSubstr_tail _ _ _
          (containsSubstr_tail _ _ _ (containsSubstr_head _ _)))
      · simp only [hb, if_true]
        exact iff_of_false (englishExplanationPrompt_ne_arabic _ _)
          (fun hne => hne (eq_of_beq hb))
  | false =>
      refine ⟨⟨client.model, arabicExplanationPrompt s.title_ar request.scenario,
        2048, (0.5 : ℚ)⟩, ?_, ?_, ?_, ?_⟩
      · simp [get_explanation, hs, hex, hb, wrapHandler,
          IslamicFinanceStandardsExplainer.get_explanation,
          TogetherAIClient.generate_text]
      · simp only [hb, if_false]
        simp only [arabicExplanationPrompt, String.append_assoc]
        exact containsSubstr_tail _ _ _ (containsSubstr_head _ _)
      · simp only [arabicExplanationPrompt, String.append_assoc]
        exact containsSubstr_tail _ _ _ (containsSubstr_tail _ _ _
          (containsSubstr_tail _ _ _ (containsSubstr_head _ _)))
      · simp only [hb, if_false]
        exact iff_of_true rfl (ne_of_beq_false hb)

/-- Witness for C4: a concrete Arabic-language request against loaded data. -/
theorem explanation_prompt_faithful_witness :
    ∃ gr : GenerationRequest,
      (get_explanation wClient [stdFAS7, stdFAS4] [exFAS4] oracleMurabaha
        ⟨"FAS4", "Client buys machinery.", "Arabic"⟩).2 = [gr] ∧
      containsSubstr gr.prompt
        (if ("Arabic" : String) == "English" then stdFAS4.title_en else stdFAS4.title_ar) ∧
      containsSubstr gr.prompt "Client buys machinery." ∧
      (gr.prompt = arabicExplanationPrompt
          (if ("Arabic" : String) == "English" then stdFAS4.title_en else stdFAS4.title_ar)
          "Client buys machinery." ↔ ("Arabic" : String) ≠ "English") :=
  explanation_prompt_faithful wClient [stdFAS7, stdFAS4] [exFAS4] oracleMurabaha
    ⟨"FAS4", "Client buys machinery.", "Arabic"⟩ stdFAS4 rfl rfl

/-- C5: when both the standard and the example exist, the feedback handler
issues exactly two generation requests in order; the second request's prompt
contains the text the client returned for the first request verbatim
(`processOutcome (oracle r1)`, which is the sentinel `"Error: ..."` string when
the first call failed — the handler does not abort), and the response carries
the second call's text as `feedback` and the first call's text as
`expert_solution`. -/
theorem feedback_two_sequential_calls (client : TogetherAIClient)
    (standards : List Standard) (examples : List Example) (oracle : Oracle)
    (request : FeedbackRequest) (s : Standard) (ex : Example)
    (hs : findStandard standards request.standard_id = some s)
    (he : findExample examples request.standard_id = some ex) :
    ∃ r1 r2 : GenerationRequest,
      (get_feedback client standards examples oracle request).2 = [r1, r2] ∧
      containsSubstr r2.prompt (processOutcome (oracle r1)) ∧
      (get_feedback client standards examples oracle request).1 =
        Except.ok ⟨processOutcome (oracle r2), processOutcome (oracle r1)⟩ := by
  cases hb : (request.language == "English") with
  | true =>
      refine ⟨⟨client.model, englishExplanationPrompt s.title_en ex.scenario_en,
          2048, (0.5 : ℚ)⟩,
        ⟨client.model,
          englishFeedbackPrompt ex.scenario_en request.user_solution
            (processOutcome (oracle ⟨client.model,
              englishExplanationPrompt s.title_en ex.scenario_en, 2048, (0.5 : ℚ)⟩)),
          1024, (0.5 : ℚ)⟩, ?_, ?_, ?_⟩
      · simp [get_feedback, hs, he, hb, wrapHandler,
          IslamicFinanceStandardsExplainer.get_explanation,
          IslamicFinanceStandardsExplainer.get_feedback,
          TogetherAIClient.generate_text]
      · simp only [englishFeedbackPrompt, String.append_assoc]
        exact containsSubstr_tail _ _ _ (containsSubstr_tail _ _ _
          (containsSubstr_tail _ _ _ (containsSubstr_tail _ _ _
            (containsSubstr_tail _ _ _ (containsSubstr_head _ _)))))
      · simp [get_feedback, hs, he, hb, wrapHandler,
          IslamicFinanceStandardsExplainer.get_explanation,
          IslamicFinanceStandardsExplainer.get_feedback,
          TogetherAIClient.generate_text]
  | false =>
      refine ⟨⟨client.model, arabicExplanationPrompt s.title_ar ex.scenario_ar,
          2048, (0.5 : ℚ)⟩,
        ⟨client.model,
          arabicFeedbackPrompt ex.scenario_ar request.user_solution
            (processOutcome (oracle ⟨client.model,
              arabicExplanationPrompt s.title_ar ex.scenario_ar, 2048, (0.5 : ℚ)⟩)),
          1024, (0.5 : ℚ)⟩, ?_, ?_, ?_⟩
      · simp [get_feedback, hs, he, hb, wrapHandler,
          IslamicFinanceStandardsExplainer.get_explanation,
          IslamicFinanceStandardsExplainer.get_feedback,
          TogetherAIClient.generate_text]
      · simp only [arabicFeedbackPrompt, String.append_assoc]
        exact containsSubstr_tail _ _ _ (containsSubstr_tail _ _ _
          (containsSubstr_tail _ _ _ (containsSubstr_tail _ _ _
            (containsSubstr_tail _ _ _ (containsSubstr_head _ _)))))
      · simp [get_feedback, hs, he, hb, wrapHandler,
          IslamicFinanceStandardsExplainer.get_explanation,
          IslamicFinanceStandardsExplainer.get_feedback,
          TogetherAIClient.generate_text]

/-- Witness for C5: a concrete request against an oracle whose first
(explanation) call fails with a 503, so the `"Error: 503"` sentinel becomes
the expert solution fed to the second call. -/
theorem feedback_two_sequential_calls_witness :
    ∃ r1 r2 : GenerationRequest,
      (get_feedback wClient [stdFAS4] [exFAS4] oracleFirstCallFails
        ⟨"FAS4", "Debit cash; credit equity.", "English"⟩).2 = [r1, r2] ∧
      containsSubstr r2.prompt (processOutcome (oracleFirstCallFails r1)) ∧
      (get_feedback wClient [stdFAS4] [exFAS4] oracleFirstCallFails
        ⟨"FAS4", "Debit cash; credit equity.", "English"⟩).1 =
        Except.ok ⟨processOutcome (oracleFirstCallFails r2),
          processOutcome (oracleFirstCallFails r1)⟩ :=
  feedback_two_sequential_calls wClient [stdFAS4] [exFAS4] oracleFirstCallFails
    ⟨"FAS4", "Debit cash; credit equity.", "English"⟩ stdFAS4 exFAS4 rfl rfl

/-- C8: the ask handler performs no reference-data lookup — its result is the
same for any loaded standards and examples — and returns the question
composer's generated text unchanged under the `answer` field; in particular,
with a stubbed client returning "Murabaha is..." the response is exactly that
text under `answer`. -/
theorem ask_returns_answer_unchanged (client : TogetherAIClient) (oracle : Oracle)
    (standards standards' : List Standard) (examples examples' : List Example)
    (request : QuestionRequest) :
    ask_question client standards examples oracle request =
      ask_question client standards' examples' oracle request ∧
    (ask_question client standards examples oracle request).1 =
      Except.ok ⟨(IslamicFinanceStandardsExplainer.ask_custom_question client oracle
          request.question request.language).1⟩ ∧
    (ask_question client [] [] oracleMurabaha
        ⟨"What is Murabaha?", "English"⟩).1 = Except.ok ⟨"Murabaha is..."⟩ :=
  ⟨rfl, rfl, rfl⟩

/-- C9: the scenario interpolated into the explanation prompt is the request's
own `scenario` field: the handler's outcome is unchanged under replacing the
loaded examples by any other list in which an example for the standard also
exists (the lookup is only an existence check), and the single generation
request's prompt is the template applied to `request.scenario`. -/
theorem explanation_uses_request_scenario (client : TogetherAIClient)
    (standards : List Standard) (examples : List Example) (oracle : Oracle)
    (request : ExplanationRequest) (s : Standard)
    (hs : findStandard standards request.standard_id = some s)
    (he : (findExample examples request.standard_id).isSome = true) :
    (∀ examples' : List Example,
      (findExample examples' request.standard_id).isSome = true →
      get_explanation client standards examples oracle request =
        get_explanation client standards examples' oracle request) ∧
    (get_explanation client standards examples oracle request).2 =
      [⟨client.model,
        if request.language == "English"
          then englishExplanationPrompt s.title_en request.scenario
          else arabicExplanationPrompt s.title_ar request.scenario,
        2048, (0.5 : ℚ)⟩] := by
  obtain ⟨ex, hex⟩ := Option.isSome_iff_exists.mp he
  constructor
  · intro examples' he'
    obtain ⟨ex', hex'⟩ := Option.isSome_iff_exists.mp he'
    simp [get_explanation, hs, hex, hex']
  · cases hb : (request.language == "English") with
    | true =>
        simp [get_explanation, hs, hex, hb, wrapHandler,
          IslamicFinanceStandardsExplainer.get_explanation,
          TogetherAIClient.generate_text]
    | false =>
        simp [get_explanation, hs, hex, hb, wrapHandler,
          IslamicFinanceStandardsExplainer.get_explanation,
          TogetherAIClient.generate_text]

/-- Witness for C9: two example lists whose stored scenarios differ give the
same outcome, and the prompt interpolates the request's scenario. -/
theorem explanation_uses_request_scenario_witness :
    (∀ examples' : List Example,
      (findExample examples' "FAS4").isSome = true →
      get_explanation wClient [stdFAS4] [exFAS4] oracleMurabaha
          ⟨"FAS4", "Client buys equipment.", "English"⟩ =
        get_explanation wClient [stdFAS4] examples' oracleMurabaha
          ⟨"FAS4", "Client buys equipment.", "English"⟩) ∧
    (get_explanation wClient [stdFAS4] [exFAS4] oracleMurabaha
        ⟨"FAS4", "Client buys equipment.", "English"⟩).2 =
      [⟨wClient.model,
        if ("English" : String) == "English"
          then englishExplanationPrompt stdFAS4.title_en "Client buys equipment."
          else arabicExplanationPrompt stdFAS4.title_ar "Client buys equipment.",
        2048, (0.5 : ℚ)⟩] :=
  explanation_uses_request_scenario wClient [stdFAS4] [exFAS4] oracleMurabaha
    ⟨"FAS4", "Client buys equipment.", "English"⟩ stdFAS4 rfl rfl

/-- C10: both handlers resolve the standard and the example as the first
element of the loaded list whose identifier matches; every later match is
ignored: the lookups return the first match, and each handler behaves exactly
as if the list contained only that first match. -/
theorem first_match_resolution (l1 l2 : List Standard) (s : Standard)
    (e1 e2 : List Example) (ex : Example) (sid : String)
    (h1 : ∀ x ∈ l1, x.id ≠ sid) (hsid : s.id = sid)
    (h2 : ∀ y ∈ e1, y.standard_id ≠ sid) (hexid : ex.standard_id = sid) :
    findStandard (l1 ++ s :: l2) sid = some s ∧
    findExample (e1 ++ ex :: e2) sid = some ex ∧
    (∀ (client : TogetherAIClient) (oracle : Oracle) (request : ExplanationRequest),
      request.standard_id = sid →
      get_explanation client (l1 ++ s :: l2) (e1 ++ ex :: e2) oracle request =
        get_explanation client [s] [ex] oracle request) ∧
    (∀ (client : TogetherAIClient) (oracle : Oracle) (request : FeedbackRequest),
      request.standard_id = sid →
      get_feedback client (l1 ++ s :: l2) (e1 ++ ex :: e2) oracle request =
        get_feedback client [s] [ex] oracle request) := by
  have hfs : findStandard (l1 ++ s :: l2) sid = some s :=
    find?_first_match _ l1 l2 s
      (fun x hx => beq_eq_false_iff_ne.mpr (h1 x hx)) (beq_iff_eq.mpr hsid)
  have hfe : findExample (e1 ++ ex :: e2) sid = some ex :=
    find?_first_match _ e1 e2 ex
      (fun y hy => beq_eq_false_iff_ne.mpr (h2 y hy)) (beq_iff_eq.mpr hexid)
  have hfs1 : findStandard [s] sid = some s := by
    simp [findStandard, List.find?, beq_iff_eq.mpr hsid]
  have hfe1 : findExample [ex] sid = some ex := by
    simp [findExample, List.find?, beq_iff_eq.mpr hexid]
  refine ⟨hfs, hfe, ?_, ?_⟩
  · intro client oracle request hreq
    rw [← hreq] at hfs hfe hfs1 hfe1
    simp [get_explanation, hfs, hfe, hfs1, hfe1]
  · intro client oracle request hreq
    rw [← hreq] at hfs hfe hfs1 hfe1
    simp [get_feedback, hfs, hfe, hfs1, hfe1]

/-- Witness for C10: with a duplicated "FAS4" standard and a duplicated
example, both lookups return the first match. -/
theorem first_match_resolution_witness :
    findStandard [stdFAS7, stdFAS4, stdFAS4dup] "FAS4" = some stdFAS4 ∧
    findExample [exFAS4, exFAS4dup] "FAS4" = some exFAS4 := by
  have h := first_match_resolution [stdFAS7] [stdFAS4dup] stdFAS4
    [] [exFAS4dup] exFAS4 "FAS4" (by decide) rfl (by decide) rfl
  exact ⟨h.1, h.2.1⟩
